import Mathlib

/-!
Verification of the transaction-coordination layer of a console e-commerce
back office (file `transactions/transaction_manager.py`).

The relational store is embedded shallowly: a `DB` record holds the rows of
the `Customers`, `Products`, `Orders`, `OrderItems` and `TransactionLog`
tables.  Nullable SQL columns (`CreditLimit`, `Price`, `InStock`,
`TotalAmount`, `UnitPrice`) are `Option`-valued, and SQL arithmetic on
`NULL` propagates `NULL` (`Option.map` / `sqlAdd`).  Decimal amounts are
embedded as `Int` (exact arithmetic, as for SQL `DECIMAL`).  Python
exceptions become the `PyErr` error type of an `Except` monad; a raised
exception aborts the transaction body, and the transaction wrapper decides
between commit (keep the mutated state) and rollback (restore the state
from transaction start).
-/

/-- A row of the `Customers` table; `credit` is the nullable `CreditLimit`
column (the spendable balance).  Columns irrelevant to the transactional
core (name, email, ...) are omitted. -/
structure Customer where
  id : Nat
  credit : Option Int
  deriving Repr, DecidableEq

/-- A row of the `Products` table: nullable `InStock` bit and nullable
`Price`. -/
structure Product where
  id : Nat
  inStock : Option Bool
  price : Option Int
  deriving Repr, DecidableEq

/-- A row of the `Orders` table. -/
structure Order where
  id : Nat
  customerId : Nat
  total : Option Int
  status : String
  deriving Repr, DecidableEq

/-- A row of the `OrderItems` table. -/
structure OrderItem where
  orderId : Nat
  productId : Nat
  quantity : Int
  unitPrice : Option Int
  deriving Repr, DecidableEq

/-- A row of the `TransactionLog` audit table (`_ensure_transaction_log_table`
creates it with foreign keys from both customer columns to `Customers`). -/
structure LogEntry where
  fromId : Nat
  toId : Nat
  amount : Int
  deriving Repr, DecidableEq

/-- The visible state of the store.  `hasTxLogTable` records whether the
`TransactionLog` table exists; `nextOrderId` models the `IDENTITY` counter
returned by `SCOPE_IDENTITY()` on insertion into `Orders`. -/
structure DB where
  customers : List Customer
  products : List Product
  orders : List Order
  orderItems : List OrderItem
  txLog : List LogEntry
  hasTxLogTable : Bool
  nextOrderId : Nat
  deriving Repr, DecidableEq

/-- Python `result[0] or 0`: a `NULL` (and a zero) credit reads as `0`. -/
def pyOr (o : Option Int) : Int := o.getD 0

/-- SQL addition with `NULL` propagation: `NULL + x = x + NULL = NULL`. -/
def sqlAdd (a b : Option Int) : Option Int :=
  match a, b with
  | some x, some y => some (x + y)
  | _, _ => none

/-- Errors a transaction step can raise.  `valueError` models the explicit
`raise ValueError(...)` guards, `typeError` the implicit failures of
subscripting / multiplying `None`, `storeError` an error raised by the
driver (missing table, foreign-key violation). -/
inductive PyErr where
  | valueError (msg : String)
  | typeError
  | storeError (msg : String)
  deriving Repr, DecidableEq

/-- `SELECT ... FROM Customers WHERE CustomerID = ?` (first matching row). -/
def DB.findCustomer (db : DB) (cid : Nat) : Option Customer :=
  db.customers.find? (fun c => c.id == cid)

/-- `SELECT ... FROM Products WHERE ProductID = ?`. -/
def DB.findProduct (db : DB) (pid : Nat) : Option Product :=
  db.products.find? (fun p => p.id == pid)

/-- `SELECT ... FROM Orders WHERE OrderID = ?`. -/
def DB.findOrder (db : DB) (oid : Nat) : Option Order :=
  db.orders.find? (fun o => o.id == oid)

/-- The stored balance of a customer: `some v` when the row exists and its
`CreditLimit` is the non-`NULL` value `v`, otherwise `none`. -/
def DB.creditOf (db : DB) (cid : Nat) : Option Int :=
  (db.findCustomer cid).bind (fun c => c.credit)

/-- `UPDATE Customers SET CreditLimit = f(CreditLimit) WHERE CustomerID = ?`. -/
def DB.updateCustomerCredit (db : DB) (cid : Nat) (f : Option Int → Option Int) : DB :=
  { db with customers :=
      db.customers.map (fun c => if c.id == cid then { c with credit := f c.credit } else c) }

/-- `UPDATE Orders SET OrderStatus = ? WHERE OrderID = ?`. -/
def DB.setOrderStatus (db : DB) (oid : Nat) (st : String) : DB :=
  { db with orders :=
      db.orders.map (fun o => if o.id == oid then { o with status := st } else o) }

/-- `UPDATE Orders SET TotalAmount = ? WHERE OrderID = ?`. -/
def DB.setOrderTotal (db : DB) (oid : Nat) (t : Int) : DB :=
  { db with orders :=
      db.orders.map (fun o => if o.id == oid then { o with total := some t } else o) }

/-- `UPDATE Products SET InStock = 1 WHERE ProductID = ?`. -/
def DB.setProductInStock (db : DB) (pid : Nat) : DB :=
  { db with products :=
      db.products.map (fun p => if p.id == pid then { p with inStock := some true } else p) }

/-- `quantity * unit_price` summed over a list of order items (a `NULL`
snapshot price counts as 0; the placement workflow only writes non-`NULL`
snapshots). -/
def itemsTotal (l : List OrderItem) : Int :=
  (l.map (fun it => it.quantity * it.unitPrice.getD 0)).sum

/-- Run transaction steps in order against the working state, threading the
state and collecting each step result; the first raised error aborts the
run (`TransactionManager.execute_in_transaction`, loop body). -/
def runOps {α : Type} (ops : List (DB → Except PyErr (α × DB))) (db : DB) :
    Except PyErr (List α × DB) :=
  match ops with
  | [] => .ok ([], db)
  | op :: rest =>
    match op db with
    | .error e => .error e
    | .ok (r, db1) =>
      match runOps rest db1 with
      | .error e => .error e
      | .ok (rs, db2) => .ok (r :: rs, db2)

/-- `TransactionManager.execute_in_transaction`: run every operation inside
one transaction; on success commit (the mutated state becomes durable) and
return the ordered list of step results, on any error roll back (the
durable state is the state from before the transaction) and re-raise the
triggering error unchanged. -/
def execute_in_transaction {α : Type} (ops : List (DB → Except PyErr (α × DB)))
    (db : DB) : Except PyErr (List α) × DB :=
  match runOps ops db with
  | .ok (rs, db1) => (.ok rs, db1)
  | .error e => (.error e, db)

/-- `debit_source_customer` (inner function of `transfer_customer_credit`):
look up the source customer's `CreditLimit` (raising if the row is absent),
read `NULL` as 0 via `result[0] or 0`, raise on insufficient credit, and
otherwise debit the row. -/
def debit_source_customer (fromId : Nat) (amt : Int) (db : DB) :
    Except PyErr (Unit × DB) :=
  match db.findCustomer fromId with
  | none => .error (.valueError "Customer does not exist")
  | some c =>
    if pyOr c.credit < amt then
      .error (.valueError "Insufficient credit")
    else
      .ok ((), db.updateCustomerCredit fromId (fun cr => cr.map (fun v => v - amt)))

/-- `credit_target_customer`: unconditional
`UPDATE Customers SET CreditLimit = CreditLimit + ?` (a no-op when no row
matches; never raises). -/
def credit_target_customer (toId : Nat) (amt : Int) (db : DB) :
    Except PyErr (Unit × DB) :=
  .ok ((), db.updateCustomerCredit toId (fun cr => cr.map (fun v => v + amt)))

/-- `log_transaction`: `INSERT INTO TransactionLog ...`.  The insert raises
when the table does not exist, and the table's declared foreign keys reject
a row whose customer ids are not present in `Customers`. -/
def log_transaction (fromId toId : Nat) (amt : Int) (db : DB) :
    Except PyErr (Unit × DB) :=
  if db.hasTxLogTable then
    if (db.findCustomer fromId).isSome && (db.findCustomer toId).isSome then
      .ok ((), { db with txLog := db.txLog ++ [⟨fromId, toId, amt⟩] })
    else
      .error (.storeError "foreign key violation on TransactionLog")
  else
    .error (.storeError "invalid object name TransactionLog")

/-- `_ensure_transaction_log_table`: on its own connection, create the
`TransactionLog` table when absent and commit immediately. -/
def ensure_transaction_log_table (db : DB) : DB :=
  { db with hasTxLogTable := true }

/-- `TransactionService.transfer_customer_credit`: ensure the log table
exists (separate committed connection), then run debit, credit and log in
one transaction; report success as a boolean, swallowing any error. -/
def transfer_customer_credit (fromId toId : Nat) (amt : Int) (db : DB) :
    Bool × DB :=
  let db0 := ensure_transaction_log_table db
  match execute_in_transaction
      [debit_source_customer fromId amt,
       credit_target_customer toId amt,
       log_transaction fromId toId amt] db0 with
  | (.ok _, db1) => (true, db1)
  | (.error _, db1) => (false, db1)

/-- One requested line of an order placement: the `product_id` / `quantity`
entries of the `order_items_data` dicts. -/
structure OrderReq where
  productId : Nat
  quantity : Int
  deriving Repr, DecidableEq

/-- `check_inventory_and_reserve`: for every requested product, raise if the
row is absent or its `InStock` flag is not truthy; reads only. -/
def check_inventory_and_reserve (items : List OrderReq) (db : DB) :
    Except PyErr Unit :=
  match items with
  | [] => .ok ()
  | req :: rest =>
    match db.findProduct req.productId with
    | none => .error (.valueError "Product does not exist")
    | some p =>
      if p.inStock == some true then check_inventory_and_reserve rest db
      else .error (.valueError "Product is out of stock")

/-- Step 3 of `place_order_with_inventory_check`: for each item re-read the
product's price, accumulate `price * quantity` into the running total and
insert the `OrderItems` row with the price snapshot.  `fetchone()` on a
vanished product returns `None` and subscripting it raises, as does
multiplying a `NULL` price by the quantity. -/
def insertItems (oid : Nat) (items : List OrderReq) (total : Int) (db : DB) :
    Except PyErr (Int × DB) :=
  match items with
  | [] => .ok (total, db)
  | req :: rest =>
    match db.findProduct req.productId with
    | none => .error .typeError
    | some p =>
      match p.price with
      | none => .error .typeError
      | some price =>
        insertItems oid rest (total + req.quantity * price)
          { db with orderItems :=
              db.orderItems ++ [⟨oid, req.productId, req.quantity, some price⟩] }

/-- `TransactionService.place_order_with_inventory_check` (the inline
transaction body actually executed): check inventory, insert the `Orders`
row with status `processing` and placeholder total 0 obtaining the
generated identity, insert the items while accumulating the total, update
the order's total, then commit; on any error roll back and propagate the
error to the caller. -/
def place_order_with_inventory_check (customerId : Nat) (items : List OrderReq)
    (db : DB) : Except PyErr Nat × DB :=
  let body : Except PyErr (Nat × DB) :=
    match check_inventory_and_reserve items db with
    | .error e => .error e
    | .ok _ =>
      let oid := db.nextOrderId
      let db1 : DB :=
        { db with
            orders := db.orders ++ [⟨oid, customerId, some 0, "processing"⟩],
            nextOrderId := db.nextOrderId + 1 }
      match insertItems oid items 0 db1 with
      | .error e => .error e
      | .ok (total, db2) => .ok (oid, db2.setOrderTotal oid total)
  match body with
  | .ok (oid, db1) => (.ok oid, db1)
  | .error e => (.error e, db)

/-- `get_order_details` (inner function of `cancel_order_with_refund`):
read the order's customer, total and status; raise `NotFound` when the row
is absent and `AlreadyCancelled` when the status is already `cancelled`. -/
def get_order_details (oid : Nat) (db : DB) : Except PyErr (Nat × Option Int) :=
  match db.findOrder oid with
  | none => .error (.valueError "Order does not exist")
  | some o =>
    if o.status == "cancelled" then .error (.valueError "Order is already cancelled")
    else .ok (o.customerId, o.total)

/-- Step 4 of `cancel_order_with_refund`: sequentially
`UPDATE Products SET InStock = 1` for each product id read from the order's
items. -/
def restockProducts (pids : List Nat) (db : DB) : DB :=
  pids.foldl (fun d pid => d.setProductInStock pid) db

/-- `TransactionService.cancel_order_with_refund`: in one transaction read
the order details, set the status to `cancelled`, credit the customer with
the order total (`CreditLimit + NULL` stays `NULL`), mark each item's
product in stock, then commit; on any error roll back and return `false`. -/
def cancel_order_with_refund (oid : Nat) (db : DB) : Bool × DB :=
  match get_order_details oid db with
  | .error _ => (false, db)
  | .ok (custId, total) =>
    let db1 := db.setOrderStatus oid "cancelled"
    let db2 := db1.updateCustomerCredit custId (fun cr => sqlAdd cr total)
    let db3 := restockProducts
        ((db2.orderItems.filter (fun it => it.orderId == oid)).map
          (fun it => it.productId)) db2
    (true, db3)

/-! ### Generic list lemmas -/

lemma find_map_of_pred_eq {α : Type} (g : α → α) (p : α → Bool)
    (hg : ∀ a, p (g a) = p a) :
    ∀ (l : List α), (l.map g).find? p = (l.find? p).map g := by
  intro l
  induction l with
  | nil => rfl
  | cons a t ih =>
    by_cases h : p a = true
    · simp [List.find?, hg, h]
    · simp only [Bool.not_eq_true] at h
      simp [List.find?, hg, h, ih]

lemma find_append_of_none {α : Type} (p : α → Bool) (l1 l2 : List α)
    (h : ∀ a ∈ l1, p a = false) :
    (l1 ++ l2).find? p = l2.find? p := by
  induction l1 with
  | nil => rfl
  | cons a t ih =>
    have ha := h a (by simp)
    have ht := ih (fun b hb => h b (by simp [hb]))
    rw [List.cons_append, List.find?_cons_of_neg _ (by simp [ha])]
    exact ht

lemma filter_of_all_false {α : Type} (p : α → Bool) (l : List α)
    (h : ∀ a ∈ l, p a = false) : l.filter p = [] := by
  induction l with
  | nil => rfl
  | cons a t ih =>
    have ha := h a (by simp)
    have ht := ih (fun b hb => h b (by simp [hb]))
    simp [List.filter_cons, ha, ht]

lemma filter_of_all_true {α : Type} (p : α → Bool) (l : List α)
    (h : ∀ a ∈ l, p a = true) : l.filter p = l := by
  induction l with
  | nil => rfl
  | cons a t ih =>
    have ha := h a (by simp)
    have ht := ih (fun b hb => h b (by simp [hb]))
    simp [List.filter_cons, ha, ht]

/-! ### Effect of the update primitives on lookups -/

lemma findCustomer_updateCustomerCredit (db : DB) (cid i : Nat)
    (f : Option Int → Option Int) :
    (db.updateCustomerCredit cid f).findCustomer i =
      (db.findCustomer i).map
        (fun c => if c.id == cid then { c with credit := f c.credit } else c) := by
  unfold DB.findCustomer DB.updateCustomerCredit
  exact find_map_of_pred_eq _ _ (fun a => by by_cases h : a.id == cid <;> simp [h]) _

lemma id_of_findCustomer (db : DB) (i : Nat) (c : Customer)
    (h : db.findCustomer i = some c) : c.id = i := by
  have h2 : db.customers.find? (fun x => x.id == i) = some c := h
  have := List.find?_some h2
  simpa using this

lemma id_of_findOrder (db : DB) (i : Nat) (o : Order)
    (h : db.findOrder i = some o) : o.id = i := by
  have h2 : db.orders.find? (fun x => x.id == i) = some o := h
  have := List.find?_some h2
  simpa using this

lemma creditOf_updateCustomerCredit_eq (db : DB) (cid : Nat) (c : Customer)
    (f : Option Int → Option Int) (h : db.findCustomer cid = some c) :
    (db.updateCustomerCredit cid f).creditOf cid = f c.credit := by
  have hid : c.id = cid := id_of_findCustomer db cid c h
  unfold DB.creditOf
  rw [findCustomer_updateCustomerCredit, h]
  simp [hid]

lemma creditOf_updateCustomerCredit_ne (db : DB) (cid i : Nat)
    (f : Option Int → Option Int) (h : i ≠ cid) :
    (db.updateCustomerCredit cid f).creditOf i = db.creditOf i := by
  unfold DB.creditOf
  rw [findCustomer_updateCustomerCredit]
  cases hf : db.findCustomer i with
  | none => rfl
  | some c =>
    have hid : c.id = i := id_of_findCustomer db i c hf
    simp [hid, h]

lemma findOrder_setOrderStatus (db : DB) (oid i : Nat) (st : String) :
    (db.setOrderStatus oid st).findOrder i =
      (db.findOrder i).map
        (fun o => if o.id == oid then { o with status := st } else o) := by
  unfold DB.findOrder DB.setOrderStatus
  exact find_map_of_pred_eq _ _ (fun a => by by_cases h : a.id == oid <;> simp [h]) _

lemma findOrder_setOrderTotal (db : DB) (oid i : Nat) (t : Int) :
    (db.setOrderTotal oid t).findOrder i =
      (db.findOrder i).map
        (fun o => if o.id == oid then { o with total := some t } else o) := by
  unfold DB.findOrder DB.setOrderTotal
  exact find_map_of_pred_eq _ _ (fun a => by by_cases h : a.id == oid <;> simp [h]) _

/-! ### Frame facts: what each primitive leaves untouched -/

@[simp] lemma updateCustomerCredit_products (db : DB) (cid : Nat) (f : Option Int → Option Int) :
    (db.updateCustomerCredit cid f).products = db.products := rfl

@[simp] lemma updateCustomerCredit_orders (db : DB) (cid : Nat) (f : Option Int → Option Int) :
    (db.updateCustomerCredit cid f).orders = db.orders := rfl

@[simp] lemma updateCustomerCredit_orderItems (db : DB) (cid : Nat) (f : Option Int → Option Int) :
    (db.updateCustomerCredit cid f).orderItems = db.orderItems := rfl

@[simp] lemma updateCustomerCredit_txLog (db : DB) (cid : Nat) (f : Option Int → Option Int) :
    (db.updateCustomerCredit cid f).txLog = db.txLog := rfl

@[simp] lemma updateCustomerCredit_hasTxLogTable (db : DB) (cid : Nat) (f : Option Int → Option Int) :
    (db.updateCustomerCredit cid f).hasTxLogTable = db.hasTxLogTable := rfl

@[simp] lemma updateCustomerCredit_nextOrderId (db : DB) (cid : Nat) (f : Option Int → Option Int) :
    (db.updateCustomerCredit cid f).nextOrderId = db.nextOrderId := rfl

@[simp] lemma ensure_table_customers (db : DB) :
    (ensure_transaction_log_table db).customers = db.customers := rfl

@[simp] lemma ensure_table_products (db : DB) :
    (ensure_transaction_log_table db).products = db.products := rfl

@[simp] lemma ensure_table_orders (db : DB) :
    (ensure_transaction_log_table db).orders = db.orders := rfl

@[simp] lemma ensure_table_orderItems (db : DB) :
    (ensure_transaction_log_table db).orderItems = db.orderItems := rfl

@[simp] lemma ensure_table_txLog (db : DB) :
    (ensure_transaction_log_table db).txLog = db.txLog := rfl

@[simp] lemma ensure_table_hasTxLogTable (db : DB) :
    (ensure_transaction_log_table db).hasTxLogTable = true := rfl

@[simp] lemma ensure_table_nextOrderId (db : DB) :
    (ensure_transaction_log_table db).nextOrderId = db.nextOrderId := rfl

@[simp] lemma setOrderStatus_customers (db : DB) (oid : Nat) (st : String) :
    (db.setOrderStatus oid st).customers = db.customers := rfl

@[simp] lemma setOrderStatus_products (db : DB) (oid : Nat) (st : String) :
    (db.setOrderStatus oid st).products = db.products := rfl

@[simp] lemma setOrderStatus_orderItems (db : DB) (oid : Nat) (st : String) :
    (db.setOrderStatus oid st).orderItems = db.orderItems := rfl

@[simp] lemma setOrderStatus_txLog (db : DB) (oid : Nat) (st : String) :
    (db.setOrderStatus oid st).txLog = db.txLog := rfl

@[simp] lemma setOrderTotal_customers (db : DB) (oid : Nat) (t : Int) :
    (db.setOrderTotal oid t).customers = db.customers := rfl

@[simp] lemma setOrderTotal_products (db : DB) (oid : Nat) (t : Int) :
    (db.setOrderTotal oid t).products = db.products := rfl

@[simp] lemma setOrderTotal_orderItems (db : DB) (oid : Nat) (t : Int) :
    (db.setOrderTotal oid t).orderItems = db.orderItems := rfl

@[simp] lemma setOrderTotal_nextOrderId (db : DB) (oid : Nat) (t : Int) :
    (db.setOrderTotal oid t).nextOrderId = db.nextOrderId := rfl

@[simp] lemma setProductInStock_customers (db : DB) (pid : Nat) :
    (db.setProductInStock pid).customers = db.customers := rfl

@[simp] lemma setProductInStock_orders (db : DB) (pid : Nat) :
    (db.setProductInStock pid).orders = db.orders := rfl

@[simp] lemma setProductInStock_orderItems (db : DB) (pid : Nat) :
    (db.setProductInStock pid).orderItems = db.orderItems := rfl

/-! ### Characterization of the credit-transfer workflow -/


lemma transfer_fail_no_source (db : DB) (fromId toId : Nat) (amt : Int)
    (h : db.findCustomer fromId = none) :
    transfer_customer_credit fromId toId amt db =
      (false, ensure_transaction_log_table db) := by
  have h0 : (ensure_transaction_log_table db).findCustomer fromId = none := h
  simp [transfer_customer_credit, execute_in_transaction, runOps,
        debit_source_customer, h0]

lemma transfer_fail_insufficient (db : DB) (fromId toId : Nat) (amt : Int)
    (c : Customer) (h : db.findCustomer fromId = some c)
    (hlt : pyOr c.credit < amt) :
    transfer_customer_credit fromId toId amt db =
      (false, ensure_transaction_log_table db) := by
  have h0 : (ensure_transaction_log_table db).findCustomer fromId = some c := h
  simp [transfer_customer_credit, execute_in_transaction, runOps,
        debit_source_customer, h0, hlt]

lemma transfer_fail_no_dest (db : DB) (fromId toId : Nat) (amt : Int)
    (c : Customer) (h : db.findCustomer fromId = some c)
    (hge : ¬ pyOr c.credit < amt) (hd : db.findCustomer toId = none) :
    transfer_customer_credit fromId toId amt db =
      (false, ensure_transaction_log_table db) := by
  have h0 : (ensure_transaction_log_table db).findCustomer fromId = some c := h
  have hd0 : (ensure_transaction_log_table db).findCustomer toId = none := hd
  have h1 : ∀ f g,
      (((ensure_transaction_log_table db).updateCustomerCredit fromId
          f).updateCustomerCredit toId g).findCustomer toId = none := by
    intro f g
    rw [findCustomer_updateCustomerCredit, findCustomer_updateCustomerCredit, hd0]
    rfl
  simp [transfer_customer_credit, execute_in_transaction, runOps,
        debit_source_customer, credit_target_customer, log_transaction,
        h0, hge, h1]

lemma transfer_success (db : DB) (fromId toId : Nat) (amt : Int)
    (c : Customer) (h : db.findCustomer fromId = some c)
    (hge : ¬ pyOr c.credit < amt) (hd : (db.findCustomer toId).isSome) :
    transfer_customer_credit fromId toId amt db =
      (true,
        (({ db with hasTxLogTable := true
                    txLog := db.txLog ++ [⟨fromId, toId, amt⟩] } : DB).updateCustomerCredit
              fromId (fun cr => cr.map (fun v => v - amt))).updateCustomerCredit
              toId (fun cr => cr.map (fun v => v + amt))) := by
  have h0 : (ensure_transaction_log_table db).findCustomer fromId = some c := h
  set base := ensure_transaction_log_table db with hbase
  set db1 := base.updateCustomerCredit fromId (fun cr => cr.map (fun v => v - amt)) with hdb1
  set db2 := db1.updateCustomerCredit toId (fun cr => cr.map (fun v => v + amt)) with hdb2
  have s1 : debit_source_customer fromId amt base = .ok ((), db1) := by
    simp [debit_source_customer, h0, hge]
  have s2 : credit_target_customer toId amt db1 = .ok ((), db2) := rfl
  have hfk1 : (db2.findCustomer fromId).isSome = true := by
    rw [hdb2, hdb1, findCustomer_updateCustomerCredit, findCustomer_updateCustomerCredit, h0]
    rfl
  have hfk2 : (db2.findCustomer toId).isSome = true := by
    rw [hdb2, hdb1, findCustomer_updateCustomerCredit, findCustomer_updateCustomerCredit]
    cases hx : db.findCustomer toId with
    | none => rw [hx] at hd; simp at hd
    | some c2 =>
      have hx0 : base.findCustomer toId = some c2 := hx
      rw [hx0]
      rfl
  have s3 : log_transaction fromId toId amt db2 =
      .ok ((), { db2 with txLog := db2.txLog ++ [⟨fromId, toId, amt⟩] }) := by
    have htab : db2.hasTxLogTable = true := by simp [hdb2, hdb1, hbase]
    simp [log_transaction, htab, hfk1, hfk2]
  have hrun : runOps [debit_source_customer fromId amt,
      credit_target_customer toId amt, log_transaction fromId toId amt] base =
      .ok ([(), (), ()], { db2 with txLog := db2.txLog ++ [⟨fromId, toId, amt⟩] }) := by
    simp only [runOps, s1, s2, s3]
  show (match execute_in_transaction [debit_source_customer fromId amt,
      credit_target_customer toId amt, log_transaction fromId toId amt] base with
    | (.ok _, dbx) => (true, dbx)
    | (.error _, dbx) => (false, dbx)) = _
  rw [show execute_in_transaction [debit_source_customer fromId amt,
      credit_target_customer toId amt, log_transaction fromId toId amt] base =
      (.ok [(), (), ()], { db2 with txLog := db2.txLog ++ [⟨fromId, toId, amt⟩] }) from by
    simp [execute_in_transaction, hrun]]
  rfl

/-! ### The Transaction Coordinator -/

lemma runOps_cons_error {α : Type} (o : DB → Except PyErr (α × DB))
    (t : List (DB → Except PyErr (α × DB))) (db : DB) (e : PyErr)
    (h : o db = .error e) : runOps (o :: t) db = .error e := by
  simp [runOps, h]

lemma runOps_cons_ok {α : Type} (o : DB → Except PyErr (α × DB))
    (t : List (DB → Except PyErr (α × DB))) (db dbm : DB) (r : α)
    (h : o db = .ok (r, dbm)) :
    runOps (o :: t) db =
      match runOps t dbm with
      | .error e => .error e
      | .ok (rs, db2) => .ok (r :: rs, db2) := by
  simp [runOps, h]

lemma runOps_append_error {α : Type} (ops1 : List (DB → Except PyErr (α × DB)))
    (op : DB → Except PyErr (α × DB)) (ops2 : List (DB → Except PyErr (α × DB))) :
    ∀ (db db1 : DB) (rs1 : List α) (e : PyErr),
      runOps ops1 db = .ok (rs1, db1) → op db1 = .error e →
      runOps (ops1 ++ op :: ops2) db = .error e := by
  induction ops1 with
  | nil =>
    intro db db1 rs1 e h1 h2
    simp [runOps] at h1
    exact runOps_cons_error op ops2 db e (h1.2 ▸ h2)
  | cons o t ih =>
    intro db db1 rs1 e h1 h2
    cases ho : o db with
    | error e2 =>
      rw [runOps_cons_error o t db e2 ho] at h1
      exact absurd h1 (by simp)
    | ok rdb =>
      obtain ⟨r, dbm⟩ := rdb
      rw [runOps_cons_ok o t db dbm r ho] at h1
      cases ht : runOps t dbm with
      | error e2 => rw [ht] at h1; exact absurd h1 (by simp)
      | ok rsdb =>
        obtain ⟨rs2, db2⟩ := rsdb
        rw [ht] at h1
        simp at h1
        have hstep : runOps ((o :: t) ++ op :: ops2) db =
            runOps (o :: (t ++ op :: ops2)) db := rfl
        rw [hstep, runOps_cons_ok o (t ++ op :: ops2) db dbm r ho,
            ih dbm db1 rs2 e (by rw [ht, h1.2]) h2]

/-- Claim C1: for every ordered list of steps given to
`TransactionManager.execute_in_transaction`, (a) if every step completes
without raising (the sequential run of the steps succeeds with result list
`rs` and final state `db1`), the transaction is committed: the call returns
the ordered list `rs` of the steps' results and the mutated state becomes
durable; and (b) if, after any prefix of steps has succeeded, the next step
raises error `e`, all effects of the earlier steps are rolled back (the
durable state is exactly the state from before the transaction) and the
original triggering error `e` itself is propagated to the caller. -/
theorem C1_execute_in_transaction_commit_or_rollback :
    (∀ (α : Type) (ops : List (DB → Except PyErr (α × DB))) (db db1 : DB)
        (rs : List α), runOps ops db = .ok (rs, db1) →
        execute_in_transaction ops db = (.ok rs, db1)) ∧
    (∀ (α : Type) (ops1 : List (DB → Except PyErr (α × DB)))
        (op : DB → Except PyErr (α × DB))
        (ops2 : List (DB → Except PyErr (α × DB))) (db db1 : DB)
        (rs1 : List α) (e : PyErr),
        runOps ops1 db = .ok (rs1, db1) → op db1 = .error e →
        execute_in_transaction (ops1 ++ op :: ops2) db = (.error e, db)) := by
  constructor
  · intro α ops db db1 rs h
    simp [execute_in_transaction, h]
  · intro α ops1 op ops2 db db1 rs1 e h1 h2
    simp [execute_in_transaction, runOps_append_error ops1 op ops2 db db1 rs1 e h1 h2]

/-- The empty store, used as a concrete witness state. -/
def dbEmpty : DB :=
  { customers := [], products := [], orders := [], orderItems := [],
    txLog := [], hasTxLogTable := false, nextOrderId := 1 }

/-- Witness for C1: a two-step all-success run commits and returns both
results in order, and a run whose second step raises rolls back to the
initial store and surfaces that very error. -/
theorem C1_witness :
    execute_in_transaction
        [fun db => .ok (10, db),
         fun db => .ok (20, { db with nextOrderId := 9 })] dbEmpty =
      (.ok [10, 20], { dbEmpty with nextOrderId := 9 }) ∧
    execute_in_transaction
        [fun db => .ok (10, { db with nextOrderId := 9 }),
         fun _ => .error (.valueError "boom")] dbEmpty =
      (.error (.valueError "boom"), dbEmpty) :=
  ⟨C1_execute_in_transaction_commit_or_rollback.1 Nat _ dbEmpty
      { dbEmpty with nextOrderId := 9 } [10, 20] (by rfl),
   C1_execute_in_transaction_commit_or_rollback.2 Nat
      [fun db => .ok (10, { db with nextOrderId := 9 })]
      (fun _ => .error (.valueError "boom")) [] dbEmpty
      { dbEmpty with nextOrderId := 9 } [10] (.valueError "boom")
      (by rfl) (by rfl)⟩

/-! ### Non-negativity of stored balances -/

/-- Every stored customer balance is non-negative (a `NULL` balance reads
as 0, exactly as the transfer guard reads it). -/
def NonNegCredits (db : DB) : Prop :=
  ∀ c ∈ db.customers, 0 ≤ pyOr c.credit

instance (db : DB) : Decidable (NonNegCredits db) := by
  unfold NonNegCredits
  infer_instance

/-- `CustomerID` is a primary key: two rows of `Customers` with the same id
coincide. -/
def UniqueCustomerIds (db : DB) : Prop :=
  ∀ c1 ∈ db.customers, ∀ c2 ∈ db.customers, c1.id = c2.id → c1 = c2

instance (db : DB) : Decidable (UniqueCustomerIds db) := by
  unfold UniqueCustomerIds
  infer_instance

lemma nonneg_after_debit_credit (db : DB) (fromId toId : Nat) (amt : Int)
    (c : Customer) (hfc : db.findCustomer fromId = some c)
    (hge : amt ≤ pyOr c.credit) (hamt : 0 < amt)
    (huniq : UniqueCustomerIds db) (hnn : NonNegCredits db) :
    NonNegCredits
      ((db.updateCustomerCredit fromId
          (fun cr => cr.map (fun v => v - amt))).updateCustomerCredit toId
          (fun cr => cr.map (fun v => v + amt))) := by
  intro x hx
  have hx2 : x ∈ (db.customers.map
      (fun c0 => if c0.id == fromId then
        { c0 with credit := c0.credit.map (fun v => v - amt) } else c0)).map
      (fun c0 => if c0.id == toId then
        { c0 with credit := c0.credit.map (fun v => v + amt) } else c0) := hx
  rcases List.mem_map.1 hx2 with ⟨y, hy, rfl⟩
  rcases List.mem_map.1 hy with ⟨c0, hc0, rfl⟩
  have hfc2 : db.customers.find? (fun z => z.id == fromId) = some c := hfc
  have hcmem : c ∈ db.customers := List.mem_of_find?_eq_some hfc2
  have hcid : c.id = fromId := id_of_findCustomer db fromId c hfc
  by_cases h1 : (c0.id == fromId) = true
  · have hc0c : c0 = c := huniq c0 hc0 c hcmem (by rw [hcid]; simpa using h1)
    have hge0 : amt ≤ pyOr c0.credit := by rw [hc0c]; exact hge
    cases hcr : c0.credit with
    | none =>
      rw [hcr] at hge0
      simp [pyOr] at hge0
      omega
    | some v =>
      rw [hcr] at hge0
      simp [pyOr] at hge0
      by_cases h2 : (c0.id == toId) = true
      · simp [h1, h2, hcr, pyOr]
        omega
      · simp [h1, h2, hcr, pyOr]
        omega
  · have hnn0 : 0 ≤ pyOr c0.credit := hnn c0 hc0
    by_cases h2 : (c0.id == toId) = true
    · cases hcr : c0.credit with
      | none => simp [h1, h2, hcr, pyOr]
      | some w =>
        rw [hcr] at hnn0
        simp [pyOr] at hnn0
        simp [h1, h2, hcr, pyOr]
        omega
    · simpa [h1, h2] using hnn0

/-- A store with two zero-balance customers and the audit table present. -/
def dbTwoZero : DB :=
  { customers := [⟨1, some 0⟩, ⟨2, some 0⟩], products := [], orders := [],
    orderItems := [], txLog := [], hasTxLogTable := true, nextOrderId := 1 }

/-- Claim C2, counterexample: a transfer CAN drive a stored `credit_limit`
negative.  Starting from two customers with balance 0 (all balances
non-negative), the transfer of the negative amount -50 from customer 1 to
customer 2 passes the sufficiency guard (0 < -50 is false), succeeds, and
leaves customer 2 with `CreditLimit = -50`. -/
theorem C2_counterexample :
    NonNegCredits dbTwoZero ∧
    (transfer_customer_credit 1 2 (-50) dbTwoZero).1 = true ∧
    ¬ NonNegCredits (transfer_customer_credit 1 2 (-50) dbTwoZero).2 := by
  decide

/-- Claim C2 (amended): (a) for every credit-transfer attempt in which the
source customer does not exist or the source's balance (`NULL` read as 0)
is less than the requested amount, the transfer reports failure (returns
`false`) and no mutation occurs — no balance is changed and no audit entry
is written; (b) consequently a transfer of a POSITIVE amount never drives
any stored `credit_limit` negative (customer ids being unique, as they are
a primary key).  The original claim's unrestricted "a transfer can never
drive credit_limit negative" is refuted by `C2_counterexample`: the code
never validates the sign of the amount, and a negative amount debits the
recipient. -/
theorem C2_insufficient_balance_no_mutation (db : DB) (fromId toId : Nat)
    (amt : Int) :
    ((db.findCustomer fromId = none ∨
        (∃ c, db.findCustomer fromId = some c ∧ pyOr c.credit < amt)) →
      (transfer_customer_credit fromId toId amt db).1 = false ∧
      (transfer_customer_credit fromId toId amt db).2.customers = db.customers ∧
      (transfer_customer_credit fromId toId amt db).2.txLog = db.txLog) ∧
    (0 < amt → UniqueCustomerIds db → NonNegCredits db →
      NonNegCredits (transfer_customer_credit fromId toId amt db).2) := by
  constructor
  · intro h
    rcases h with h | ⟨c, hc, hlt⟩
    · rw [transfer_fail_no_source db fromId toId amt h]
      simp
    · rw [transfer_fail_insufficient db fromId toId amt c hc hlt]
      simp
  · intro hamt huniq hnn
    cases hfc : db.findCustomer fromId with
    | none =>
      rw [transfer_fail_no_source db fromId toId amt hfc]
      exact fun x hx => hnn x hx
    | some c =>
      by_cases hlt : pyOr c.credit < amt
      · rw [transfer_fail_insufficient db fromId toId amt c hfc hlt]
        exact fun x hx => hnn x hx
      · cases htc : db.findCustomer toId with
        | none =>
          rw [transfer_fail_no_dest db fromId toId amt c hfc hlt htc]
          exact fun x hx => hnn x hx
        | some c2 =>
          rw [transfer_success db fromId toId amt c hfc hlt (by rw [htc]; rfl)]
          have hbase : ({ db with hasTxLogTable := true
                                  txLog := db.txLog ++ [⟨fromId, toId, amt⟩] } : DB).findCustomer
              fromId = some c := hfc
          exact fun x hx =>
            nonneg_after_debit_credit _ fromId toId amt c hbase
              (not_lt.1 hlt) hamt (fun a ha b hb => huniq a ha b hb)
              (fun a ha => hnn a ha) x hx

/-- A store for the C2 witness: customer 1 holds 10, customer 2 holds 5. -/
def dbC2w : DB :=
  { customers := [⟨1, some 10⟩, ⟨2, some 5⟩], products := [], orders := [],
    orderItems := [], txLog := [], hasTxLogTable := true, nextOrderId := 1 }

/-- Witness for C2: transferring 50 from customer 1 (balance 10) fails and
mutates nothing, and a positive-amount transfer preserves non-negative
balances. -/
theorem C2_witness :
    ((transfer_customer_credit 1 2 50 dbC2w).1 = false ∧
     (transfer_customer_credit 1 2 50 dbC2w).2.customers = dbC2w.customers ∧
     (transfer_customer_credit 1 2 50 dbC2w).2.txLog = dbC2w.txLog) ∧
    NonNegCredits (transfer_customer_credit 1 2 50 dbC2w).2 :=
  ⟨(C2_insufficient_balance_no_mutation dbC2w 1 2 50).1
      (Or.inr ⟨⟨1, some 10⟩, by decide, by decide⟩),
   (C2_insufficient_balance_no_mutation dbC2w 1 2 50).2
      (by decide) (by decide) (by decide)⟩

/-- A store with a single customer holding 10, audit table present. -/
def dbSelf : DB :=
  { customers := [⟨1, some 10⟩], products := [], orders := [],
    orderItems := [], txLog := [], hasTxLogTable := true, nextOrderId := 1 }

/-- Claim C3, counterexample: for the successful transfer of amount 5 from
customer 1 TO customer 1 itself (the code never forbids `X = Y`), the
source balance afterwards is 10, not `10 - 5` as the claim requires: the
debit and the credit hit the same row. -/
theorem C3_counterexample :
    dbSelf.creditOf 1 = some 10 ∧
    (transfer_customer_credit 1 1 5 dbSelf).1 = true ∧
    (transfer_customer_credit 1 1 5 dbSelf).2.creditOf 1 ≠ some (10 - 5) := by
  decide

/-- Claim C3 (amended): for every successful credit transfer of amount `a`
from customer X to a DIFFERENT customer Y, where both rows exist with
non-`NULL` stored balances `b1` and `b2`, afterwards X holds `b1 - a`, Y
holds `b2 + a`, and the sum of the two balances is conserved.  The original
claim, which also quantifies over `X = Y`, is refuted by
`C3_counterexample` (a self-transfer succeeds and leaves the balance
unchanged rather than decremented). -/
theorem C3_conservation (db : DB) (x y : Nat) (a b1 b2 : Int)
    (hxy : x ≠ y) (hx : db.creditOf x = some b1) (hy : db.creditOf y = some b2)
    (hs : (transfer_customer_credit x y a db).1 = true) :
    (transfer_customer_credit x y a db).2.creditOf x = some (b1 - a) ∧
    (transfer_customer_credit x y a db).2.creditOf y = some (b2 + a) ∧
    (b1 - a) + (b2 + a) = b1 + b2 := by
  cases hfc : db.findCustomer x with
  | none =>
    rw [transfer_fail_no_source db x y a hfc] at hs
    exact absurd hs (by simp)
  | some c =>
    have hcc : c.credit = some b1 := by
      have h2 := hx
      unfold DB.creditOf at h2
      rw [hfc] at h2
      simpa using h2
    by_cases hlt : pyOr c.credit < a
    · rw [transfer_fail_insufficient db x y a c hfc hlt] at hs
      exact absurd hs (by simp)
    · cases htc : db.findCustomer y with
      | none =>
        rw [transfer_fail_no_dest db x y a c hfc hlt htc] at hs
        exact absurd hs (by simp)
      | some c2 =>
        have hcc2 : c2.credit = some b2 := by
          have h2 := hy
          unfold DB.creditOf at h2
          rw [htc] at h2
          simpa using h2
        rw [transfer_success db x y a c hfc hlt (by rw [htc]; rfl)]
        set base : DB := { db with hasTxLogTable := true
                                   txLog := db.txLog ++ [⟨x, y, a⟩] } with hbasedef
        have hbx : base.findCustomer x = some c := hfc
        have hby : base.findCustomer y = some c2 := htc
        refine ⟨?_, ?_, by ring⟩
        · rw [show ((base.updateCustomerCredit x
              (fun cr => cr.map (fun v => v - a))).updateCustomerCredit y
              (fun cr => cr.map (fun v => v + a))).creditOf x =
              (base.updateCustomerCredit x
                (fun cr => cr.map (fun v => v - a))).creditOf x from
              creditOf_updateCustomerCredit_ne _ y x _ hxy,
            creditOf_updateCustomerCredit_eq base x c _ hbx, hcc]
          rfl
        · rw [creditOf_updateCustomerCredit_eq _ y c2 _
              (by rw [findCustomer_updateCustomerCredit, hby]
                  simp [id_of_findCustomer db y c2 htc, Ne.symm hxy]),
            hcc2]
          rfl

/-- A store for the C3 witness: spec scenario 1 (A holds 100, B holds 20). -/
def dbC3w : DB :=
  { customers := [⟨1, some 100⟩, ⟨2, some 20⟩], products := [], orders := [],
    orderItems := [], txLog := [], hasTxLogTable := true, nextOrderId := 1 }

/-- Witness for C3: transferring 50 from customer 1 (balance 100) to
customer 2 (balance 20) leaves balances 50 and 70, and their sum is
conserved. -/
theorem C3_witness :
    (transfer_customer_credit 1 2 50 dbC3w).2.creditOf 1 = some (100 - 50) ∧
    (transfer_customer_credit 1 2 50 dbC3w).2.creditOf 2 = some (20 + 50) ∧
    (100 - 50 : Int) + (20 + 50) = 100 + 20 :=
  C3_conservation dbC3w 1 2 50 100 20 (by decide) (by decide) (by decide)
    (by decide)

/-- A store for the C8 counterexample: two zero-balance customers and NO
audit table yet. -/
def dbC8 : DB :=
  { customers := [⟨1, some 0⟩, ⟨2, some 0⟩], products := [], orders := [],
    orderItems := [], txLog := [], hasTxLogTable := false, nextOrderId := 1 }

/-- Claim C8, counterexample: a transfer request of the non-positive amount
0 is NOT rejected by validation before any transaction is opened — the code
performs no amount validation at all.  The request proceeds through the
whole pipeline: it creates the `TransactionLog` table, runs the
transaction, commits, appends an audit row and returns `true`. -/
theorem C8_counterexample :
    (0 : Int) ≤ 0 ∧
    (transfer_customer_credit 1 2 0 dbC8).1 = true ∧
    (transfer_customer_credit 1 2 0 dbC8).2.txLog ≠ dbC8.txLog ∧
    (transfer_customer_credit 1 2 0 dbC8).2.hasTxLogTable ≠ dbC8.hasTxLogTable := by
  decide

/-- Claim C8 (amended): `transfer_customer_credit` performs no validation
of the amount: a request with amount ≤ 0 enters the transaction like any
other and, whenever the source customer exists with stored balance at
least the amount and the destination customer exists, it SUCCEEDS —
returning `true` and appending an audit entry for the non-positive amount.
The original claim (rejection with a validation failure before any
transaction is opened) is refuted by `C8_counterexample`. -/
theorem C8_no_amount_validation (db : DB) (fromId toId : Nat) (amt : Int)
    (c : Customer) (hle : amt ≤ 0) (h : db.findCustomer fromId = some c)
    (hge : amt ≤ pyOr c.credit) (hd : (db.findCustomer toId).isSome) :
    (transfer_customer_credit fromId toId amt db).1 = true ∧
    (transfer_customer_credit fromId toId amt db).2.txLog =
      db.txLog ++ [⟨fromId, toId, amt⟩] := by
  rw [transfer_success db fromId toId amt c h (not_lt.2 hge) hd]
  simp

/-- Witness for C8: with both customers present at balance 0, the
zero-amount transfer succeeds and logs an audit row. -/
theorem C8_witness :
    (transfer_customer_credit 1 2 0 dbC8).1 = true ∧
    (transfer_customer_credit 1 2 0 dbC8).2.txLog =
      dbC8.txLog ++ [⟨1, 2, 0⟩] :=
  C8_no_amount_validation dbC8 1 2 0 ⟨1, some 0⟩ (by decide) (by decide)
    (by decide) (by decide)

/-- Claim C9: if the source customer exists but its stored `CreditLimit` is
`NULL`, `result[0] or 0` reads the balance as 0, so every transfer of a
positive amount from such a customer fails the sufficiency check before
any mutation: the call returns `false`, and neither the customer rows nor
the audit log change. -/
theorem C9_null_credit_reads_as_zero (db : DB) (fromId toId : Nat)
    (amt : Int) (c : Customer) (hpos : 0 < amt)
    (h : db.findCustomer fromId = some c) (hnull : c.credit = none) :
    (transfer_customer_credit fromId toId amt db).1 = false ∧
    (transfer_customer_credit fromId toId amt db).2.customers = db.customers ∧
    (transfer_customer_credit fromId toId amt db).2.txLog = db.txLog := by
  have hlt : pyOr c.credit < amt := by simp [hnull, pyOr, hpos]
  rw [transfer_fail_insufficient db fromId toId amt c h hlt]
  simp

/-- A store for the C9 witness: customer 1 exists with a `NULL` credit. -/
def dbC9 : DB :=
  { customers := [⟨1, none⟩, ⟨2, some 5⟩], products := [], orders := [],
    orderItems := [], txLog := [], hasTxLogTable := true, nextOrderId := 1 }

/-- Witness for C9: transferring 10 from the `NULL`-credit customer 1 fails
and mutates nothing. -/
theorem C9_witness :
    (transfer_customer_credit 1 2 10 dbC9).1 = false ∧
    (transfer_customer_credit 1 2 10 dbC9).2.customers = dbC9.customers ∧
    (transfer_customer_credit 1 2 10 dbC9).2.txLog = dbC9.txLog :=
  C9_null_credit_reads_as_zero dbC9 1 2 10 ⟨1, none⟩ (by decide) (by decide)
    (by decide)

/-- Claim C10: every invocation of `transfer_customer_credit` first runs
`_ensure_transaction_log_table` on a separate, immediately committed
connection, before the transfer transaction begins: afterwards the
`TransactionLog` table exists no matter how the transfer ends, and when the
transfer fails the durable state is exactly
`ensure_transaction_log_table db` — the rollback restores everything
except the table creation, which persists. -/
theorem C10_ensure_table_persists (db : DB) (fromId toId : Nat) (amt : Int) :
    (transfer_customer_credit fromId toId amt db).2.hasTxLogTable = true ∧
    ((transfer_customer_credit fromId toId amt db).1 = false →
      (transfer_customer_credit fromId toId amt db).2 =
        ensure_transaction_log_table db) := by
  cases hfc : db.findCustomer fromId with
  | none =>
    rw [transfer_fail_no_source db fromId toId amt hfc]
    exact ⟨rfl, fun _ => rfl⟩
  | some c =>
    by_cases hlt : pyOr c.credit < amt
    · rw [transfer_fail_insufficient db fromId toId amt c hfc hlt]
      exact ⟨rfl, fun _ => rfl⟩
    · cases htc : db.findCustomer toId with
      | none =>
        rw [transfer_fail_no_dest db fromId toId amt c hfc hlt htc]
        exact ⟨rfl, fun _ => rfl⟩
      | some c2 =>
        rw [transfer_success db fromId toId amt c hfc hlt (by rw [htc]; rfl)]
        exact ⟨rfl, fun hfalse => absurd hfalse (by simp)⟩

/-- Witness for C10: in the empty store the transfer fails (no source
customer), yet the resulting state is exactly the store with the
`TransactionLog` table created. -/
theorem C10_witness :
    (transfer_customer_credit 1 2 5 dbEmpty).2.hasTxLogTable = true ∧
    (transfer_customer_credit 1 2 5 dbEmpty).2 =
      ensure_transaction_log_table dbEmpty :=
  ⟨(C10_ensure_table_persists dbEmpty 1 2 5).1,
   (C10_ensure_table_persists dbEmpty 1 2 5).2 (by decide)⟩

/-! ### Order placement -/

lemma insertItems_spec (oid : Nat) :
    ∀ (items : List OrderReq) (acc tot : Int) (db db1 : DB),
      insertItems oid items acc db = .ok (tot, db1) →
      db1.customers = db.customers ∧ db1.products = db.products ∧
      db1.orders = db.orders ∧ db1.txLog = db.txLog ∧
      db1.hasTxLogTable = db.hasTxLogTable ∧
      db1.nextOrderId = db.nextOrderId ∧
      ∃ new, db1.orderItems = db.orderItems ++ new ∧
        (∀ it ∈ new, it.orderId = oid) ∧ tot = acc + itemsTotal new := by
  intro items
  induction items with
  | nil =>
    intro acc tot db db1 h
    simp [insertItems] at h
    obtain ⟨h1, h2⟩ := h
    subst h1
    subst h2
    exact ⟨rfl, rfl, rfl, rfl, rfl, rfl, [], by simp, by simp, by simp [itemsTotal]⟩
  | cons req rest ih =>
    intro acc tot db db1 h
    simp only [insertItems] at h
    cases hp : db.findProduct req.productId with
    | none => simp only [hp] at h; exact absurd h (by simp)
    | some p =>
      simp only [hp] at h
      cases hpr : p.price with
      | none => simp only [hpr] at h; exact absurd h (by simp)
      | some price =>
        simp only [hpr] at h
        obtain ⟨hc, hpv, hov, htl, hht, hni, new, hitems, hnew, htot⟩ :=
          ih (acc + req.quantity * price) tot
            { db with orderItems :=
                db.orderItems ++ [⟨oid, req.productId, req.quantity, some price⟩] }
            db1 h
        refine ⟨hc, hpv, hov, htl, hht, hni,
          ⟨oid, req.productId, req.quantity, some price⟩ :: new, ?_, ?_, ?_⟩
        · rw [hitems]
          simp
        · intro it hit
          rcases List.mem_cons.1 hit with hh | hh
          · rw [hh]
          · exact hnew it hh
        · rw [htot]
          simp [itemsTotal]
          ring

lemma place_error_state (db : DB) (cid : Nat) (items : List OrderReq)
    (e : PyErr) (db1 : DB)
    (h : place_order_with_inventory_check cid items db = (.error e, db1)) :
    db1 = db := by
  simp only [place_order_with_inventory_check] at h
  split at h
  · exact absurd h (by simp)
  · simp at h
    exact h.2.symm

/-- Claim C4: for every successful order placement via
`place_order_with_inventory_check` (under the identity-column invariant
that every pre-existing order id and order-item reference is below the
next generated id), the stored order's `TotalAmount` equals the sum over
its `OrderItems` rows of `quantity * unit_price`, where each `unit_price`
is the snapshot recorded on the item inside the same transaction. -/
theorem C4_order_total_matches_items (db : DB) (cid : Nat)
    (items : List OrderReq) (oid : Nat) (db1 : DB)
    (hfo : ∀ o ∈ db.orders, o.id < db.nextOrderId)
    (hfi : ∀ it ∈ db.orderItems, it.orderId < db.nextOrderId)
    (h : place_order_with_inventory_check cid items db = (.ok oid, db1)) :
    ∃ o, db1.findOrder oid = some o ∧
      o.total = some (itemsTotal (db1.orderItems.filter
        (fun it => it.orderId == oid))) := by
  simp only [place_order_with_inventory_check] at h
  cases hchk : check_inventory_and_reserve items db with
  | error e => simp only [hchk] at h; exact absurd h (by simp)
  | ok u =>
    simp only [hchk] at h
    cases hins : insertItems db.nextOrderId items 0
        { db with orders := db.orders ++ [⟨db.nextOrderId, cid, some 0, "processing"⟩]
                  nextOrderId := db.nextOrderId + 1 } with
    | error e => simp only [hins] at h; exact absurd h (by simp)
    | ok td =>
      obtain ⟨tot, db2⟩ := td
      simp only [hins] at h
      simp at h
      obtain ⟨hoid, hdb1⟩ := h
      subst hoid
      subst hdb1
      obtain ⟨hc, hpv, hov, htl, hht, hni, new, hitems, hnew, htot⟩ :=
        insertItems_spec db.nextOrderId items 0 tot _ db2 hins
      have hov2 : db2.orders =
          db.orders ++ [⟨db.nextOrderId, cid, some 0, "processing"⟩] := hov
      have hitems2 : db2.orderItems = db.orderItems ++ new := hitems
      have hfind : db2.findOrder db.nextOrderId =
          some ⟨db.nextOrderId, cid, some 0, "processing"⟩ := by
        show db2.orders.find? (fun o => o.id == db.nextOrderId) = _
        rw [hov2, find_append_of_none _ _ _
            (fun o ho => by simp [Nat.ne_of_lt (hfo o ho)])]
        simp [List.find?]
      have hfilter : db2.orderItems.filter
          (fun it => it.orderId == db.nextOrderId) = new := by
        rw [hitems2, List.filter_append,
            filter_of_all_false _ _
              (fun it hit => by simp [Nat.ne_of_lt (hfi it hit)]),
            filter_of_all_true _ _ (fun it hit => by simp [hnew it hit])]
        simp
      refine ⟨⟨db.nextOrderId, cid, some tot, "processing"⟩, ?_, ?_⟩
      · rw [findOrder_setOrderTotal, hfind]
        simp
      · simp only [setOrderTotal_orderItems]
        rw [hfilter]
        simp at htot
        rw [htot]

/-- A store for the C4 witness: one in-stock product priced 10. -/
def dbC4w : DB :=
  { customers := [], products := [⟨1, some true, some 10⟩], orders := [],
    orderItems := [], txLog := [], hasTxLogTable := false, nextOrderId := 1 }

/-- The store after the C4 witness placement: order 1 for customer 7 with
two units of product 1 and total 20. -/
def dbC4done : DB :=
  { customers := [], products := [⟨1, some true, some 10⟩],
    orders := [⟨1, 7, some 20, "processing"⟩],
    orderItems := [⟨1, 1, 2, some 10⟩], txLog := [], hasTxLogTable := false,
    nextOrderId := 2 }

/-- Witness for C4: placing an order of 2 units of product 1 (price 10)
yields the stored total 20, the item sum. -/
theorem C4_witness :
    ∃ o, dbC4done.findOrder 1 = some o ∧
      o.total = some (itemsTotal (dbC4done.orderItems.filter
        (fun it => it.orderId == 1))) :=
  C4_order_total_matches_items dbC4w 7 [⟨1, 2⟩] 1 dbC4done
    (by decide) (by decide) (by rfl)

/-- Claim C5: every order-placement attempt that fails — in particular one
that fails at the item-insertion stage, after the `Orders` row was inserted
— is rolled back whole (under the identity-column invariant): the durable
state is the pre-call state, no `Orders` row with the attempted identity
`db.nextOrderId` is visible, and no `OrderItems` row references it. -/
theorem C5_failed_placement_rolls_back (db : DB) (cid : Nat)
    (items : List OrderReq) (e : PyErr) (db1 : DB)
    (hfo : ∀ o ∈ db.orders, o.id < db.nextOrderId)
    (hfi : ∀ it ∈ db.orderItems, it.orderId < db.nextOrderId)
    (h : place_order_with_inventory_check cid items db = (.error e, db1)) :
    db1 = db ∧ db1.findOrder db.nextOrderId = none ∧
    ∀ it ∈ db1.orderItems, it.orderId ≠ db.nextOrderId := by
  have hdb : db1 = db := place_error_state db cid items e db1 h
  subst hdb
  refine ⟨rfl, ?_, ?_⟩
  · show db1.orders.find? (fun o => o.id == db1.nextOrderId) = none
    apply List.find?_eq_none.2
    intro o ho
    simp [Nat.ne_of_lt (hfo o ho)]
  · intro it hit
    exact Nat.ne_of_lt (hfi it hit)

/-- A store for the C5 witness: product 1 is flagged in stock but its
`Price` is `NULL`, so the placement passes the availability check, inserts
the `Orders` row, then fails at the item-insertion stage when
`price * quantity` is evaluated — and rolls back. -/
def dbC5w : DB :=
  { customers := [], products := [⟨1, some true, none⟩], orders := [],
    orderItems := [], txLog := [], hasTxLogTable := false, nextOrderId := 1 }

/-- Witness for C5: the failed placement leaves the store untouched and no
order row 1 exists. -/
theorem C5_witness :
    dbC5w = dbC5w ∧ dbC5w.findOrder dbC5w.nextOrderId = none ∧
    ∀ it ∈ dbC5w.orderItems, it.orderId ≠ dbC5w.nextOrderId :=
  C5_failed_placement_rolls_back dbC5w 7 [⟨1, 1⟩] .typeError dbC5w
    (by decide) (by decide) (by rfl)

/-! ### Order cancellation -/

lemma restockProducts_products : ∀ (pids : List Nat) (db : DB),
    (restockProducts pids db).products =
      db.products.map (fun p =>
        if p.id ∈ pids then { p with inStock := some true } else p) := by
  intro pids
  induction pids with
  | nil =>
    intro db
    show db.products = _
    simp
  | cons q t ih =>
    intro db
    show (restockProducts t (db.setProductInStock q)).products = _
    rw [ih (db.setProductInStock q),
        show (db.setProductInStock q).products = db.products.map
          (fun p => if p.id == q then { p with inStock := some true } else p)
          from rfl,
        List.map_map]
    apply List.map_congr_left
    intro p hp
    by_cases h1 : p.id = q <;> by_cases h2 : p.id ∈ t <;>
      simp [Function.comp, h1, h2]

lemma restockProducts_customers : ∀ (pids : List Nat) (db : DB),
    (restockProducts pids db).customers = db.customers := by
  intro pids
  induction pids with
  | nil => intro db; rfl
  | cons q t ih => intro db; exact ih (db.setProductInStock q)

lemma restockProducts_orders : ∀ (pids : List Nat) (db : DB),
    (restockProducts pids db).orders = db.orders := by
  intro pids
  induction pids with
  | nil => intro db; rfl
  | cons q t ih => intro db; exact ih (db.setProductInStock q)

lemma restock_mem (pids : List Nat) (db : DB) :
    ∀ p ∈ (restockProducts pids db).products, p.id ∈ pids →
      p.inStock = some true := by
  intro p hp hc
  rw [restockProducts_products] at hp
  rcases List.mem_map.1 hp with ⟨q, hq, rfl⟩
  by_cases h : q.id ∈ pids
  · simp [h]
  · exact absurd hc (by simp [h])

/-- Claim C6: for every successful cancellation via
`cancel_order_with_refund` of an order whose customer row exists with a
non-`NULL` balance `b` and whose `TotalAmount` is the non-`NULL` value `t`,
within the one transaction the customer's balance becomes `b + t` (an
increase of exactly the order total), the order's status becomes
`cancelled`, and every product row referenced by an `OrderItems` row of
that order ends with `in_stock = true`. -/
theorem C6_cancel_refunds_and_restocks (db : DB) (oid : Nat) (o : Order)
    (t b : Int) (ho : db.findOrder oid = some o)
    (hst : o.status ≠ "cancelled") (ht : o.total = some t)
    (hb : db.creditOf o.customerId = some b) :
    (cancel_order_with_refund oid db).1 = true ∧
    (cancel_order_with_refund oid db).2.creditOf o.customerId = some (b + t) ∧
    (∃ o2, (cancel_order_with_refund oid db).2.findOrder oid = some o2 ∧
      o2.status = "cancelled") ∧
    (∀ p ∈ (cancel_order_with_refund oid db).2.products,
      p.id ∈ (db.orderItems.filter (fun it => it.orderId == oid)).map
        (fun it => it.productId) →
      p.inStock = some true) := by
  have hdet : get_order_details oid db = .ok (o.customerId, o.total) := by
    simp [get_order_details, ho, hst]
  have hc : cancel_order_with_refund oid db =
      (true,
        restockProducts
          ((db.orderItems.filter (fun it => it.orderId == oid)).map
            (fun it => it.productId))
          ((db.setOrderStatus oid "cancelled").updateCustomerCredit
            o.customerId (fun cr => sqlAdd cr o.total))) := by
    unfold cancel_order_with_refund
    rw [hdet]
    rfl
  rw [hc]
  set pids := (db.orderItems.filter (fun it => it.orderId == oid)).map
    (fun it => it.productId) with hpids
  set db2 := (db.setOrderStatus oid "cancelled").updateCustomerCredit
    o.customerId (fun cr => sqlAdd cr o.total) with hdb2
  cases hfc : db.findCustomer o.customerId with
  | none =>
    exact absurd hb (by unfold DB.creditOf; rw [hfc]; simp)
  | some cx =>
    have hcxcred : cx.credit = some b := by
      have h2 := hb
      unfold DB.creditOf at h2
      rw [hfc] at h2
      simpa using h2
    refine ⟨rfl, ?_, ?_, ?_⟩
    · have hrc : (restockProducts pids db2).creditOf o.customerId =
          db2.creditOf o.customerId := by
        unfold DB.creditOf DB.findCustomer
        rw [restockProducts_customers]
      rw [hrc, hdb2,
          creditOf_updateCustomerCredit_eq (db.setOrderStatus oid "cancelled")
            o.customerId cx _
            (show (db.setOrderStatus oid "cancelled").findCustomer o.customerId =
              some cx from hfc),
          hcxcred, ht]
      rfl
    · refine ⟨{ o with status := "cancelled" }, ?_, rfl⟩
      have hro : (restockProducts pids db2).findOrder oid =
          db2.findOrder oid := by
        unfold DB.findOrder
        rw [restockProducts_orders]
      rw [hro]
      have : db2.findOrder oid =
          (db.setOrderStatus oid "cancelled").findOrder oid := rfl
      rw [this, findOrder_setOrderStatus, ho]
      simp [id_of_findOrder db oid o ho]
    · intro p hp hmem
      exact restock_mem pids db2 p hp hmem

/-- A store for the C6 witness (spec scenario 5): customer 3 holds 100 and
order 7 (total 25, status `processing`) has items over products 1 and 2,
both currently out of stock. -/
def dbC6w : DB :=
  { customers := [⟨3, some 100⟩],
    products := [⟨1, some false, some 10⟩, ⟨2, some false, some 5⟩],
    orders := [⟨7, 3, some 25, "processing"⟩],
    orderItems := [⟨7, 1, 2, some 10⟩, ⟨7, 2, 1, some 5⟩],
    txLog := [], hasTxLogTable := true, nextOrderId := 8 }

/-- Witness for C6: cancelling order 7 succeeds, refunds 25 to customer 3
(balance 125), flips the status to `cancelled` and restocks products 1 and
2. -/
theorem C6_witness :
    (cancel_order_with_refund 7 dbC6w).1 = true ∧
    (cancel_order_with_refund 7 dbC6w).2.creditOf 3 = some (100 + 25) ∧
    (∃ o2, (cancel_order_with_refund 7 dbC6w).2.findOrder 7 = some o2 ∧
      o2.status = "cancelled") ∧
    (∀ p ∈ (cancel_order_with_refund 7 dbC6w).2.products,
      p.id ∈ (dbC6w.orderItems.filter (fun it => it.orderId == 7)).map
        (fun it => it.productId) →
      p.inStock = some true) :=
  C6_cancel_refunds_and_restocks dbC6w 7 ⟨7, 3, some 25, "processing"⟩ 25 100
    (by decide) (by decide) (by decide) (by decide)

/-- Claim C7: a cancellation attempt on an order that does not exist
(`NotFound`) or whose status is already `cancelled` (`AlreadyCancelled`)
fails inside `get_order_details` before any mutation: the call reports
failure by returning `false` and the durable state is exactly the
pre-call state — no balance, status or product-flag change. -/
theorem C7_cancel_guard_no_mutation (db : DB) (oid : Nat)
    (h : db.findOrder oid = none ∨
      ∃ o, db.findOrder oid = some o ∧ o.status = "cancelled") :
    cancel_order_with_refund oid db = (false, db) := by
  unfold cancel_order_with_refund
  rcases h with h | ⟨o, ho, hst⟩
  · rw [show get_order_details oid db =
        .error (.valueError "Order does not exist") from by
      simp [get_order_details, h]]
  · rw [show get_order_details oid db =
        .error (.valueError "Order is already cancelled") from by
      simp [get_order_details, ho, hst]]

/-- A store for the C7 witness: order 7 is already cancelled. -/
def dbC7w : DB :=
  { customers := [⟨3, some 125⟩],
    products := [⟨1, some true, some 10⟩],
    orders := [⟨7, 3, some 25, "cancelled"⟩],
    orderItems := [⟨7, 1, 2, some 10⟩],
    txLog := [], hasTxLogTable := true, nextOrderId := 8 }

/-- Witness for C7: re-cancelling the already-cancelled order 7 and
cancelling the non-existent order 99 both return `false` and leave the
store exactly as it was. -/
theorem C7_witness :
    cancel_order_with_refund 7 dbC7w = (false, dbC7w) ∧
    cancel_order_with_refund 99 dbC7w = (false, dbC7w) :=
  ⟨C7_cancel_guard_no_mutation dbC7w 7
      (Or.inr ⟨⟨7, 3, some 25, "cancelled"⟩, by decide, by decide⟩),
   C7_cancel_guard_no_mutation dbC7w 99 (Or.inl (by decide))⟩
